import Mathlib

/-!
# Verification of the `reporte_financiero` application

Shallow embedding of the two core pieces of the repository — the metrics
calculator (`obtener_datos`) and the report/attachment assembly pipeline
(`generar_pdf`, `enviar_email`, `ejecutar_envio`) — together with proofs of
the behavioural properties stated in the specification.

Prices are embedded as rationals; the external collaborators (market-data
source, filesystem, HTML-to-PDF converter, SMTP relay) are parameters of the
embedded functions: a fetch function, an existence predicate, a converter
function returning either output bytes or an exception, and an abstract send
outcome.
-/

namespace ReporteFinanciero

/-- One daily OHLC bar as consumed from the market-data source.  Only the
`Close`, `High` and `Low` columns are read by the program. -/
structure Bar where
  close : ℚ
  high : ℚ
  low : ℚ
deriving DecidableEq, Repr

/-- One row appended to `resultados` by `obtener_datos`: the fields
`"Ticker"`, `"Precio Cierre"`, `"Cambio Diario (%)"`, `"Rango Diario (%)"`. -/
structure DailyMetric where
  ticker : String
  precio_cierre : ℚ
  cambio_diario : ℚ
  rango_diario : ℚ
deriving DecidableEq, Repr

/-- Python `round(x, 2)`: rounding to two decimal places (tie behaviour is
immaterial to the properties proved here). -/
def round2 (q : ℚ) : ℚ := ((round (q * 100) : ℤ) : ℚ) / 100

/-- The body of the `for ticker in tickers` loop of `obtener_datos`:
given the fetched history (chronological, so `iloc[-1]` is the last element
and `iloc[-2]` the one before it), either skip (`continue`, here `none`)
when fewer than two bars are available, or build the metric row from the
latest two bars.  `cierre_hoy`, `cierre_ayer`, `high`, `low` of the source
are inlined. -/
def procesar_ticker (ticker : String) (datos : List Bar) : Option DailyMetric :=
  match datos.reverse with
  | hoy :: ayer :: _ =>
      some { ticker := ticker,
             precio_cierre := round2 hoy.close,
             cambio_diario := round2 (((hoy.close - ayer.close) / ayer.close) * 100),
             rango_diario := round2 (((hoy.high - hoy.low) / hoy.close) * 100) }
  | _ => none

/-- The hardcoded ticker list of `obtener_datos`. -/
def tickers_fijos : List String := ["AAPL", "GOOGL", "MSFT"]

/-- `obtener_datos`, generalised over the input ticker sequence (the spec's
`computeMetrics(tickers)`): the accumulation loop over `tickers` with the
`continue` skip is exactly a `filterMap` of the loop body. -/
def obtener_datos_lista (tickers : List String) (history : String → List Bar) :
    List DailyMetric :=
  tickers.filterMap (fun t => procesar_ticker t (history t))

/-- `obtener_datos` as written in the source: the loop instantiated at the
hardcoded ticker list, with the fetch `yf.Ticker(t).history(period="2d")`
abstracted as `history`. -/
def obtener_datos (history : String → List Bar) : List DailyMetric :=
  obtener_datos_lista tickers_fijos history

/-- The chart filename `f"grafico_{ticker}.pdf"` used by `mostrar_grafico`
and `enviar_email`. -/
def nombre_grafico (ticker : String) : String := "grafico_" ++ ticker ++ ".pdf"

/-- The attachment filenames composed by `enviar_email`: `reporte.pdf` is
attached unconditionally, then for each ticker the chart file is attached
exactly when `os.path.exists` says it is on disk.  The filesystem is
abstracted as the existence predicate `fs_existe`. -/
def adjuntos (fs_existe : String → Bool) (tickers : List String) : List String :=
  "reporte.pdf" ::
    tickers.filterMap (fun t =>
      if fs_existe (nombre_grafico t) then some (nombre_grafico t) else none)

/-- A Python exception as observed by the `except Exception as e` handler:
its type name `type(e).__name__` and its text `str(e)`. -/
structure Excepcion where
  tipo : String
  texto : String
deriving DecidableEq, Repr

/-- Python truthiness test `not s` on an environment-variable lookup:
true when the variable is unset (`None`) or the empty string. -/
def falsy : Option String → Bool
  | none => true
  | some s => s == ""

/-- The three environment variables read by `enviar_email`. -/
structure EnvCorreo where
  email_user : Option String
  email_pass : Option String
  email_to : Option String

/-- Label shown on success: `"✅ Correo enviado correctamente"`. -/
def etiqueta_exito : String := "✅ Correo enviado correctamente"

/-- Label shown by the handler: `f"❌ Error: {type(e).__name__} - {str(e)}"`. -/
def etiqueta_error (e : Excepcion) : String :=
  "❌ Error: " ++ e.tipo ++ " - " ++ e.texto

/-- The `try` block of `enviar_email` (environment-variable variant):
the credential check raising `ValueError("Faltan datos en el archivo .env")`
when any of the three variables is falsy, then the compose-and-send sequence,
abstracted by its outcome `envio` (any exception raised while composing —
e.g. opening `reporte.pdf` — or sending is an `Except.error`).  The second
component counts how many times the send sequence is entered: there is no
retry loop in the source. -/
def cuerpo_envio (env : EnvCorreo) (envio : Except Excepcion Unit) :
    Except Excepcion Unit × Nat :=
  if falsy env.email_user || falsy env.email_pass || falsy env.email_to then
    (Except.error { tipo := "ValueError", texto := "Faltan datos en el archivo .env" }, 0)
  else (envio, 1)

/-- `enviar_email`: run the `try` block; on success show the success label,
on any exception show the error label built from the exception's type name
and text.  The function is total: no exception escapes. -/
def enviar_email (env : EnvCorreo) (envio : Except Excepcion Unit) : String :=
  match (cuerpo_envio env envio).1 with
  | Except.ok _ => etiqueta_exito
  | Except.error e => etiqueta_error e

/-- The HTML body built by `ejecutar_envio` (form variant, line 264):
`f"<h3>{asunto}</h3><p>{comentario}</p><hr>{self.reporte_html}"`. -/
def cuerpo_html (asunto comentario reporte : String) : String :=
  "<h3>" ++ asunto ++ "</h3><p>" ++ comentario ++ "</p><hr>" ++ reporte

/-- The HTML body passed to `enviar_email` by `PanelFinanciero.enviar_correo`
(environment-variable variant): `self.reporte_html` alone. -/
def cuerpo_variante_env (reporte : String) : String := reporte

/-- Python `str.strip()`: drop leading and trailing whitespace characters. -/
def recortar (s : String) : String :=
  ⟨((s.data.dropWhile Char.isWhitespace).reverse.dropWhile Char.isWhitespace).reverse⟩

/-- Outcome of the form's send button: either the mandatory-fields error
label `"❌ Todos los campos son obligatorios"` is shown and nothing is sent,
or `enviar_email` is invoked with the given subject and composed body. -/
inductive AccionFormulario where
  | etiqueta_obligatorios : AccionFormulario
  | enviar (asunto cuerpo : String) : AccionFormulario
deriving DecidableEq, Repr

/-- `ejecutar_envio` (form variant): strip the subject and commentary
fields; if either is empty show the error label and return, otherwise build
the body and invoke the send. -/
def ejecutar_envio (asunto_bruto comentario_bruto reporte : String) :
    AccionFormulario :=
  if recortar asunto_bruto == "" || recortar comentario_bruto == "" then
    AccionFormulario.etiqueta_obligatorios
  else
    AccionFormulario.enviar (recortar asunto_bruto)
      (cuerpo_html (recortar asunto_bruto) (recortar comentario_bruto) reporte)

/-- One table cell of the rendered report. -/
def celda (s : String) : String := "<td>" ++ s ++ "</td>"

/-- One table row of the rendered report: the four metric columns.  Models
one row of the external pandas `DataFrame.to_html` renderer as a pure
function of the metric record. -/
def fila_html (m : DailyMetric) : String :=
  "<tr>" ++ celda m.ticker ++ celda (toString m.precio_cierre) ++
    celda (toString m.cambio_diario) ++ celda (toString m.rango_diario) ++ "</tr>"

/-- The report table: models `df.to_html(classes="table table-striped
table-bordered", index=False)` — the external pandas renderer — as a pure
function of the metric sequence (header row, then one row per metric). -/
def tabla_html (ms : List DailyMetric) : String :=
  "<table class=\"table table-striped table-bordered\"><thead><tr><th>Ticker</th><th>Precio Cierre</th><th>Cambio Diario (%)</th><th>Rango Diario (%)</th></tr></thead><tbody>"
    ++ String.join (ms.map fila_html) ++ "</tbody></table>"

/-- The full report HTML built inside `generar_pdf` (styled variant,
lines 61-73): the fixed document wrapper around the rendered table. -/
def generar_reporte_html (ms : List DailyMetric) : String :=
  "<html><head><meta charset=\"UTF-8\"></head><body class=\"p-4\"><h2 class=\"text-center mb-4\">📊 Reporte Financiero</h2>"
    ++ tabla_html ms ++ "</body></html>"

/-- The fixed converter options dictionary `opciones` of `generar_pdf`. -/
def opciones_pdf : List (String × String) :=
  [("encoding", "UTF-8"), ("page-size", "A4"), ("margin-top", "10mm"),
   ("margin-bottom", "10mm"), ("margin-left", "10mm"), ("margin-right", "10mm")]

/-- An externally visible effect of `generar_pdf`: a file write, or an
invocation of the HTML-to-PDF converter on an input path producing an
output path under an options dictionary. -/
inductive Efecto where
  | escribir (ruta contenido : String) : Efecto
  | convertir (entrada salida : String) (opciones : List (String × String)) : Efecto
deriving DecidableEq, Repr

/-- `generar_pdf` as its sequence of effects: write the HTML to the fixed
file `reporte.html`, then run `pdfkit.from_file("reporte.html",
"reporte.pdf", options=opciones, ...)`. -/
def generar_pdf_efectos (reporte_html : String) : List Efecto :=
  [Efecto.escribir "reporte.html" reporte_html,
   Efecto.convertir "reporte.html" "reporte.pdf" opciones_pdf]

/-- How one effect transforms the filesystem (a map from path to content):
a write stores the content at the path; a conversion stores the converter's
output (the converter itself abstracted as `conv`) at the output path. -/
def aplicar (conv : String → String) (fs : String → Option String) :
    Efecto → String → Option String
  | Efecto.escribir ruta contenido =>
      fun p => if p = ruta then some contenido else fs p
  | Efecto.convertir entrada salida _ =>
      fun p => if p = salida then some (conv ((fs entrada).getD "")) else fs p

/-- Running `generar_pdf` over a filesystem: fold its effects. -/
def ejecutar_generar_pdf (conv : String → String) (fs : String → Option String)
    (reporte_html : String) : String → Option String :=
  (generar_pdf_efectos reporte_html).foldl (aplicar conv) fs

/-- `generar_pdf` with a fallible converter: the HTML is written to
`reporte.html`, then the converter runs; there is no `try` in `generar_pdf`,
so a converter exception is returned unhandled. -/
def generar_pdf_exc (conv : String → Except Excepcion String)
    (fs : String → Option String) (reporte_html : String) :
    Except Excepcion (String → Option String) :=
  match conv reporte_html with
  | Except.ok pdf =>
      Except.ok (fun p =>
        if p = "reporte.pdf" then some pdf
        else if p = "reporte.html" then some reporte_html else fs p)
  | Except.error e => Except.error e

/-- `PanelFinanciero.__init__`: fetch the metrics, build the report HTML and
call `generar_pdf` — with no exception handler anywhere on this path, so a
converter failure propagates out of the constructor. -/
def inicializar_panel (history : String → List Bar)
    (conv : String → Except Excepcion String) (fs : String → Option String) :
    Except Excepcion (List DailyMetric × (String → Option String)) :=
  match generar_pdf_exc conv fs (generar_reporte_html (obtener_datos history)) with
  | Except.ok fs2 => Except.ok (obtener_datos history, fs2)
  | Except.error e => Except.error e

/-! ## Helper lemmas -/

theorem procesar_ticker_eq_none (t : String) (d : List Bar) (h : d.length < 2) :
    procesar_ticker t d = none := by
  rcases hd : d.reverse with _ | ⟨a, tl⟩
  · unfold procesar_ticker
    rw [hd]
  · rcases tl with _ | ⟨b, tl2⟩
    · unfold procesar_ticker
      rw [hd]
    · exfalso
      have hl := congrArg List.length hd
      simp at hl
      omega

theorem procesar_ticker_ticker_eq {t : String} {d : List Bar} {m : DailyMetric}
    (h : procesar_ticker t d = some m) : m.ticker = t := by
  unfold procesar_ticker at h
  rcases hd : d.reverse with _ | ⟨a, tl⟩
  · rw [hd] at h
    exact absurd h (by simp)
  · rcases tl with _ | ⟨b, tl2⟩
    · rw [hd] at h
      exact absurd h (by simp)
    · rw [hd] at h
      have hm := Option.some.inj h
      rw [← hm]

theorem procesar_ticker_isSome (t : String) (d : List Bar) (h : 2 ≤ d.length) :
    ∃ m, procesar_ticker t d = some m ∧ m.ticker = t := by
  rcases hd : d.reverse with _ | ⟨a, tl⟩
  · have hl := congrArg List.length hd
    rw [List.length_reverse] at hl
    simp only [List.length_nil] at hl
    omega
  · rcases tl with _ | ⟨b, tl2⟩
    · have hl := congrArg List.length hd
      rw [List.length_reverse] at hl
      simp only [List.length_cons, List.length_nil] at hl
      omega
    · refine ⟨{ ticker := t,
                precio_cierre := round2 a.close,
                cambio_diario := round2 (((a.close - b.close) / b.close) * 100),
                rango_diario := round2 (((a.high - a.low) / a.close) * 100) }, ?_, rfl⟩
      unfold procesar_ticker
      rw [hd]

theorem nombre_grafico_ne_reporte (t : String) : nombre_grafico t ≠ "reporte.pdf" := by
  intro h
  have hd := congrArg String.data h
  simp [nombre_grafico, String.data_append] at hd

/-! ## Claim theorems -/

/-- C1: For every ticker whose fetched history has at least two bars,
`obtener_datos` computes the daily change as
`(todayClose - yesterdayClose) / yesterdayClose * 100` and the intraday
range as `(high - low) / todayClose * 100` from exactly the latest two bars
of the history, rounding the close, the daily change and the intraday range
to two decimal places; in particular close_today = 150.00 and
close_yesterday = 100.00 give a daily change of 50.00. -/
theorem metricas_dos_barras :
    (∀ (t : String) (anteriores : List Bar) (ayer hoy : Bar),
        procesar_ticker t (anteriores ++ [ayer, hoy]) =
          some { ticker := t,
                 precio_cierre := round2 hoy.close,
                 cambio_diario := round2 (((hoy.close - ayer.close) / ayer.close) * 100),
                 rango_diario := round2 (((hoy.high - hoy.low) / hoy.close) * 100) }) ∧
    (procesar_ticker "AAPL"
        [{ close := 100, high := 102, low := 99 },
         { close := 150, high := 152, low := 149 }]).map DailyMetric.cambio_diario
      = some 50 := by
  constructor
  · intro t anteriores ayer hoy
    have hrev : (anteriores ++ [ayer, hoy]).reverse = hoy :: ayer :: anteriores.reverse := by
      simp
    unfold procesar_ticker
    rw [hrev]
  · have hp : procesar_ticker "AAPL"
        [{ close := 100, high := 102, low := 99 },
         { close := 150, high := 152, low := 149 }] =
        some { ticker := "AAPL",
               precio_cierre := round2 150,
               cambio_diario := round2 ((((150 : ℚ) - 100) / 100) * 100),
               rango_diario := round2 ((((152 : ℚ) - 149) / 150) * 100) } := rfl
    rw [hp]
    norm_num [round2, round_eq]

/-- C2: A ticker whose fetched history has fewer than two bars is omitted
from the output sequence of `obtener_datos` (the loop body yields no row for
it); the embedding is a total function, so no error reaches the caller. -/
theorem tickers_cortos_omitidos (tickers : List String) (history : String → List Bar)
    (t : String) (h : (history t).length < 2) :
    t ∉ (obtener_datos_lista tickers history).map DailyMetric.ticker := by
  intro hmem
  obtain ⟨m, hm, hmt⟩ := List.mem_map.mp hmem
  unfold obtener_datos_lista at hm
  obtain ⟨a, _, hfa⟩ := List.mem_filterMap.mp hm
  have hat : a = t := by rw [← procesar_ticker_ticker_eq hfa, hmt]
  rw [hat, procesar_ticker_eq_none t (history t) h] at hfa
  exact Option.noConfusion hfa

/-- C2 witness: with an empty history, "AAPL" is absent from the output. -/
theorem tickers_cortos_omitidos_testigo :
    "AAPL" ∉ (obtener_datos_lista ["AAPL"] (fun _ => [])).map DailyMetric.ticker :=
  tickers_cortos_omitidos ["AAPL"] (fun _ => []) "AAPL" (by decide)

/-- C3: `enviar_email` attaches `reporte.pdf` unconditionally, and for each
ticker of the input list it attaches `grafico_<TICKER>.pdf` if and only if
that file exists on disk at call time; a missing chart file is skipped. -/
theorem adjuntos_correo (fs_existe : String → Bool) (tickers : List String) :
    "reporte.pdf" ∈ adjuntos fs_existe tickers ∧
    ∀ t ∈ tickers,
      (nombre_grafico t ∈ adjuntos fs_existe tickers ↔
        fs_existe (nombre_grafico t) = true) := by
  constructor
  · exact List.mem_cons_self _ _
  · intro t ht
    constructor
    · intro hmem
      rcases List.mem_cons.mp hmem with hcab | hcola
      · exact absurd hcab (nombre_grafico_ne_reporte t)
      · obtain ⟨a, _, hfa⟩ := List.mem_filterMap.mp hcola
        by_cases hfs : fs_existe (nombre_grafico a) = true
        · rw [if_pos hfs] at hfa
          rw [← Option.some.inj hfa]
          exact hfs
        · rw [if_neg hfs] at hfa
          exact Option.noConfusion hfa
    · intro hfs
      refine List.mem_cons_of_mem _ (List.mem_filterMap.mpr ⟨t, ht, ?_⟩)
      rw [if_pos hfs]

/-- C3 witness: a one-ticker list on a filesystem where every file exists. -/
theorem adjuntos_correo_testigo :
    "reporte.pdf" ∈ adjuntos (fun _ => true) ["AAPL"] ∧
    (nombre_grafico "AAPL" ∈ adjuntos (fun _ => true) ["AAPL"] ↔
      (fun _ : String => true) (nombre_grafico "AAPL") = true) :=
  ⟨(adjuntos_correo (fun _ => true) ["AAPL"]).1,
   (adjuntos_correo (fun _ => true) ["AAPL"]).2 "AAPL" (by simp)⟩

/-- C4: every failure on the send path — the missing-credentials
`ValueError` as well as any exception of the compose-and-send sequence — is
caught by the topmost handler of `enviar_email` and converted to a displayed
label carrying the exception's type name and text; the send sequence is
entered at most once (no retry) and `enviar_email` always returns a label
(no exception propagates). -/
theorem enviar_email_captura (env : EnvCorreo) (envio : Except Excepcion Unit) :
    (cuerpo_envio env envio).2 ≤ 1 ∧
    (∀ e, (cuerpo_envio env envio).1 = Except.error e →
        enviar_email env envio = "❌ Error: " ++ e.tipo ++ " - " ++ e.texto) ∧
    (enviar_email env envio = etiqueta_exito ∨
      ∃ e, enviar_email env envio = etiqueta_error e) := by
  refine ⟨?_, ?_, ?_⟩
  · unfold cuerpo_envio
    split
    · exact Nat.zero_le 1
    · exact Nat.le_refl 1
  · intro e he
    unfold enviar_email
    rw [he]
    rfl
  · cases h : (cuerpo_envio env envio).1 with
    | ok a =>
        left
        unfold enviar_email
        rw [h]
    | error e =>
        right
        refine ⟨e, ?_⟩
        unfold enviar_email
        rw [h]

/-- C4 witness: with all three environment variables unset, the shown label
is the caught `ValueError` with its text. -/
theorem enviar_email_captura_testigo :
    enviar_email { email_user := none, email_pass := none, email_to := none }
        (Except.ok ()) =
      "❌ Error: " ++ "ValueError" ++ " - " ++ "Faltan datos en el archivo .env" :=
  (enviar_email_captura { email_user := none, email_pass := none, email_to := none }
      (Except.ok ())).2.1
    { tipo := "ValueError", texto := "Faltan datos en el archivo .env" } rfl

/-- C5 counterexample: the form variant's composed body is not just the
commentary followed by the report table — it also contains the subject in a
leading heading, so two sends differing only in the subject produce
different bodies, and the body differs from commentary ++ table. -/
theorem cuerpo_depende_del_asunto :
    cuerpo_html "A" "C" "T" ≠ cuerpo_html "B" "C" "T" ∧
    cuerpo_html "A" "C" "T" ≠ "C" ++ "T" := by
  constructor <;> decide

/-- C5 amended: when commentary is present (form variant) the body is the
subject in an `<h3>` heading, then the commentary in a `<p>` paragraph, then
an `<hr>` separator, then the report table; when commentary is absent
(environment variant) the body is the report table alone. -/
theorem cuerpo_html_estructura :
    (∀ asunto comentario reporte : String,
        cuerpo_html asunto comentario reporte =
          "<h3>" ++ asunto ++ "</h3><p>" ++ comentario ++ "</p><hr>" ++ reporte) ∧
    (∀ reporte : String, cuerpo_variante_env reporte = reporte) :=
  ⟨fun _ _ _ => rfl, fun _ => rfl⟩

/-- C6: the report-HTML construction is deterministic — two runs on
identical metric sequences produce byte-identical HTML strings. -/
theorem generar_reporte_html_determinista (ms1 ms2 : List DailyMetric)
    (h : ms1 = ms2) : generar_reporte_html ms1 = generar_reporte_html ms2 :=
  congrArg generar_reporte_html h

/-- C6 witness: two runs on the same one-row metric sequence agree. -/
theorem generar_reporte_html_determinista_testigo :
    generar_reporte_html [{ ticker := "AAPL", precio_cierre := 150,
                            cambio_diario := 5, rango_diario := 2 }] =
      generar_reporte_html [{ ticker := "AAPL", precio_cierre := 150,
                              cambio_diario := 5, rango_diario := 2 }] :=
  generar_reporte_html_determinista _ _ rfl

/-- C7: `generar_pdf` writes its input HTML to the fixed intermediate file
`reporte.html`, invokes the converter with exactly the fixed options (UTF-8,
A4, 10mm margins on all four sides) on the fixed pair of paths, produces the
fixed-name output `reporte.pdf`, touches no other path, and a repeated call
overwrites the same two fixed paths. -/
theorem generar_pdf_rutas_fijas (conv : String → String)
    (fs : String → Option String) (reporte_html : String) :
    ejecutar_generar_pdf conv fs reporte_html "reporte.html" = some reporte_html ∧
    ejecutar_generar_pdf conv fs reporte_html "reporte.pdf" = some (conv reporte_html) ∧
    (∀ p, p ≠ "reporte.html" → p ≠ "reporte.pdf" →
        ejecutar_generar_pdf conv fs reporte_html p = fs p) ∧
    (∀ html2 p, p = "reporte.html" ∨ p = "reporte.pdf" →
        ejecutar_generar_pdf conv (ejecutar_generar_pdf conv fs reporte_html) html2 p
          = ejecutar_generar_pdf conv fs html2 p) ∧
    generar_pdf_efectos reporte_html =
      [Efecto.escribir "reporte.html" reporte_html,
       Efecto.convertir "reporte.html" "reporte.pdf" opciones_pdf] := by
  refine ⟨?_, ?_, ?_, ?_, rfl⟩
  · simp [ejecutar_generar_pdf, generar_pdf_efectos, aplicar]
  · simp [ejecutar_generar_pdf, generar_pdf_efectos, aplicar]
  · intro p h1 h2
    simp [ejecutar_generar_pdf, generar_pdf_efectos, aplicar, h1, h2]
  · intro html2 p hp
    rcases hp with rfl | rfl <;>
      simp [ejecutar_generar_pdf, generar_pdf_efectos, aplicar]

/-- C7 witness: on an empty filesystem, an unrelated path stays untouched
and a second run overwrites the fixed output path. -/
theorem generar_pdf_rutas_fijas_testigo :
    ejecutar_generar_pdf (fun s => "PDF:" ++ s) (fun _ => none) "<html>" "otro.txt"
      = none ∧
    ejecutar_generar_pdf (fun s => "PDF:" ++ s)
        (ejecutar_generar_pdf (fun s => "PDF:" ++ s) (fun _ => none) "<html>")
        "<body>" "reporte.pdf"
      = ejecutar_generar_pdf (fun s => "PDF:" ++ s) (fun _ => none) "<body>" "reporte.pdf" :=
  ⟨(generar_pdf_rutas_fijas (fun s => "PDF:" ++ s) (fun _ => none) "<html>").2.2.1
      "otro.txt" (by decide) (by decide),
   (generar_pdf_rutas_fijas (fun s => "PDF:" ++ s) (fun _ => none) "<html>").2.2.2.1
      "<body>" "reporte.pdf" (Or.inr rfl)⟩

/-- C8: a failure of the external HTML-to-PDF converter is handled nowhere:
the exception is returned unchanged by `generar_pdf`, and it propagates
unchanged through the calling pipeline (`PanelFinanciero.__init__`),
terminating the triggering action. -/
theorem fallo_convertidor_propaga :
    (∀ (conv : String → Except Excepcion String) (fs : String → Option String)
        (reporte_html : String) (e : Excepcion),
        conv reporte_html = Except.error e →
        generar_pdf_exc conv fs reporte_html = Except.error e) ∧
    (∀ (history : String → List Bar) (conv : String → Except Excepcion String)
        (fs : String → Option String) (e : Excepcion),
        conv (generar_reporte_html (obtener_datos history)) = Except.error e →
        inicializar_panel history conv fs = Except.error e) := by
  constructor
  · intro conv fs reporte_html e h
    unfold generar_pdf_exc
    rw [h]
  · intro history conv fs e h
    have h2 : generar_pdf_exc conv fs (generar_reporte_html (obtener_datos history))
        = Except.error e := by
      unfold generar_pdf_exc
      rw [h]
    unfold inicializar_panel
    rw [h2]

/-- C8 witness: a converter that always fails makes the whole panel
initialisation fail with that very exception. -/
theorem fallo_convertidor_propaga_testigo :
    inicializar_panel (fun _ => [])
        (fun _ => Except.error { tipo := "OSError", texto := "wkhtmltopdf no encontrado" })
        (fun _ => none)
      = Except.error { tipo := "OSError", texto := "wkhtmltopdf no encontrado" } :=
  fallo_convertidor_propaga.2 (fun _ => [])
    (fun _ => Except.error { tipo := "OSError", texto := "wkhtmltopdf no encontrado" })
    (fun _ => none) { tipo := "OSError", texto := "wkhtmltopdf no encontrado" } rfl

/-- C9: for every input ticker sequence, the output of the metrics loop
follows the input order with the insufficient-history tickers removed: the
sequence of output tickers is exactly the input sequence filtered to the
tickers with at least two bars. -/
theorem obtener_datos_orden (tickers : List String) (history : String → List Bar) :
    (obtener_datos_lista tickers history).map DailyMetric.ticker
      = tickers.filter (fun t => decide (2 ≤ (history t).length)) := by
  induction tickers with
  | nil => rfl
  | cons t ts ih =>
      by_cases h : 2 ≤ (history t).length
      · obtain ⟨m, hm, hmt⟩ := procesar_ticker_isSome t (history t) h
        have hdec : decide (2 ≤ (history t).length) = true := decide_eq_true h
        simp only [obtener_datos_lista, List.filterMap_cons, hm, List.map_cons,
          List.filter_cons, hdec]
        rw [hmt]
        exact congrArg (t :: ·) ih
      · have hn : procesar_ticker t (history t) = none :=
          procesar_ticker_eq_none t (history t) (by omega)
        simp only [obtener_datos_lista, List.filterMap_cons, hn, List.filter_cons]
        have hdec : decide (2 ≤ (history t).length) = false := by
          simpa using h
        rw [hdec]
        exact ih

/-- C10: in the form variant, a send is attempted exactly when both the
subject and the commentary are non-empty after stripping surrounding
whitespace; otherwise the mandatory-fields error label is shown and no
message is composed or sent.  When the send happens, it carries the stripped
subject and the body composed from the stripped fields. -/
theorem ejecutar_envio_valida (a c r : String) :
    ((recortar a = "" ∨ recortar c = "") →
        ejecutar_envio a c r = AccionFormulario.etiqueta_obligatorios) ∧
    (recortar a ≠ "" → recortar c ≠ "" →
        ejecutar_envio a c r =
          AccionFormulario.enviar (recortar a)
            (cuerpo_html (recortar a) (recortar c) r)) ∧
    ((∃ s b, ejecutar_envio a c r = AccionFormulario.enviar s b) ↔
        (recortar a ≠ "" ∧ recortar c ≠ "")) := by
  by_cases h1 : recortar a = "" <;> by_cases h2 : recortar c = "" <;>
    simp [ejecutar_envio, h1, h2]

/-- C10 witness: a blank subject blocks the send; non-blank fields send the
stripped subject with the composed body. -/
theorem ejecutar_envio_valida_testigo :
    ejecutar_envio "   " "hola" "T" = AccionFormulario.etiqueta_obligatorios ∧
    ejecutar_envio " Asunto " " hola " "T" =
      AccionFormulario.enviar "Asunto" (cuerpo_html "Asunto" "hola" "T") := by
  constructor
  · exact (ejecutar_envio_valida "   " "hola" "T").1 (Or.inl (by decide))
  · have h := (ejecutar_envio_valida " Asunto " " hola " "T").2.1
      (by decide) (by decide)
    have e1 : recortar " Asunto " = "Asunto" := by decide
    have e2 : recortar " hola " = "hola" := by decide
    rw [e1, e2] at h
    exact h

end ReporteFinanciero
